import Mathlib

/-!
A shallow embedding of the price-history comparison and alerting engine of
the FlightAgent repository, together with proofs about it.

Sources embedded:
- `api/utils/price_tracker.py` (alert policy `should_send_alert`),
- `api/utils/validators.py` (`validate_price`),
- `api/utils/config.py` (`get_preferences`, modelled as an explicit
  `Preferences` value threaded to the code that reads it),
- `api/database.py` (`TravelTrackerDB`: `save_flight_price`,
  `get_last_checked_price`, `get_daily_best_price`,
  `update_daily_best_price`, `compare_and_update_best_price`),
- `api/phase3_tracker.py` (`PriceTracker.track_flight_prices`,
  `PriceTracker.get_price_history`).

Modelling conventions:
- Prices (`REAL` in SQLite, `float` in Python) are modelled as `ℚ`; every
  arithmetic the engine performs on them (subtraction, `<`, `>`) is exact at
  the inputs the properties mention, so no rounding behaviour is lost.
- Calendar dates are the `TEXT` values `"YYYY-MM-DD"` SQLite stores; SQLite
  compares `TEXT` bytewise, which on this format agrees with the `String`
  order, so `ORDER BY checked_date DESC` is the descending `String` order.
- `CURRENT_TIMESTAMP` / `created_at` is modelled by a monotone `clock`
  counter on the database state, bumped at every insert.
- SQLite autoincrement ids are modelled by `next_flight_id` / `next_best_id`
  counters (SQLite assigns ids starting from 1, monotonically).
- Each Python method that touches the database becomes a pure function from
  a `DBState` (plus the value of `datetime.now().strftime("%Y-%m-%d")`,
  passed as `today`) to its result and the successor state.
-/

namespace FlightAgent

/-- A calendar date as stored by the program: a `"YYYY-MM-DD"` `TEXT` value.
SQLite's bytewise `TEXT` comparison on this format is the `String` order. -/
abbrev Date := String

/-- The user preferences that the alert policy reads
(`api/utils/config.py`, `get_preferences()`): the value stored under the
`"alert_price_drop_threshold"` key of `config.json`, when present. -/
structure Preferences where
  alert_price_drop_threshold : Option ℚ
deriving Repr, DecidableEq

/-- `api/utils/price_tracker.py`, `should_send_alert(current_price,
last_checked_price)`: returns `False` when there is no previous price;
otherwise reads the threshold from the configured preferences (default
`10.0` when the key is absent) and alerts iff the drop strictly exceeds it.
The Python function takes only the two prices; the configuration it reads
via `get_preferences()` appears here as the explicit `prefs` argument. -/
def should_send_alert (prefs : Preferences) (current_price : ℚ)
    (last_checked_price : Option ℚ) : Bool :=
  match last_checked_price with
  | none => false
  | some lp =>
    let threshold := prefs.alert_price_drop_threshold.getD 10
    decide (lp - current_price > threshold)

/-- The alert policy exactly as the specification words it (§4.2): a pure
function `should_alert(current_price, previous_price | absent, threshold)`
with the threshold an explicit parameter. Stated from the spec's words, to
be compared with the source's `should_send_alert`. -/
def should_alert_spec (current_price : ℚ) (previous_price : Option ℚ)
    (threshold : ℚ) : Bool :=
  match previous_price with
  | none => false
  | some p => decide (p - current_price > threshold)

/-- `api/utils/validators.py`, `validate_price(price, min_price=0)`:
`None` passes through; a price below `min_price` raises `ValidationError`
(modelled as the `Except.error` carrying the message). The `isinstance`
check cannot fail in the typed embedding. -/
def validate_price (price : Option ℚ) (min_price : ℚ := 0) :
    Except String (Option ℚ) :=
  match price with
  | none => Except.ok none
  | some p =>
    if p < min_price then Except.error "Price must be below minimum"
    else Except.ok (some p)

/-- One row of the `flight_prices` table (`api/database.py`,
`_init_database`). The `is_best_price` column (default 0, never written by
any code path) is omitted. `created_at` is the insertion clock. -/
structure FlightRow where
  id : ℕ
  departure_date : Date
  return_date : Date
  inbound_airport : String
  outbound_airport : String
  routing_description : String
  total_price : ℚ
  currency : String
  outbound_flight_data : Option String
  return_flight_data : Option String
  booking_url : Option String
  flight_numbers : Option String
  airlines : Option String
  checked_date : Date
  created_at : ℕ
deriving Repr, DecidableEq

/-- One row of the `daily_best_prices` table: `date` carries a UNIQUE
constraint, `id` is the autoincrement key. -/
structure DailyBestRow where
  id : ℕ
  date : Date
  best_price : ℚ
  currency : String
  departure_date : Date
  return_date : Date
  inbound_airport : String
  outbound_airport : String
  routing_description : String
  flight_record_id : ℕ
  updated_at : ℕ
deriving Repr, DecidableEq

/-- The database state: both tables, the two autoincrement counters, and
the `CURRENT_TIMESTAMP` clock. (The `hotel_prices` table is untouched by
the tracked engine and is not modelled.) -/
structure DBState where
  flight_prices : List FlightRow
  daily_best_prices : List DailyBestRow
  next_flight_id : ℕ
  next_best_id : ℕ
  clock : ℕ
deriving Repr, DecidableEq

/-- A freshly initialised database: empty tables, autoincrement at 1. -/
def emptyDB : DBState :=
  { flight_prices := [], daily_best_prices := [],
    next_flight_id := 1, next_best_id := 1, clock := 0 }

/-- The arguments of `save_flight_price` (keyword parameters of the Python
method, minus `total_price`'s siblings none — all are explicit here). -/
structure SaveArgs where
  departure_date : Date
  return_date : Date
  inbound_airport : String
  outbound_airport : String
  total_price : ℚ
  currency : String
  routing_description : String
  outbound_flight_data : Option String
  return_flight_data : Option String
  booking_url : Option String
  flight_numbers : Option String
  airlines : Option String
deriving Repr, DecidableEq

/-- The row a `save_flight_price` call appends: field values from the
arguments, `checked_date` from today's date, `id` the next autoincrement
value, `created_at` the current clock. -/
def savedRow (s : DBState) (today : Date) (a : SaveArgs) : FlightRow :=
  { id := s.next_flight_id,
    departure_date := a.departure_date, return_date := a.return_date,
    inbound_airport := a.inbound_airport,
    outbound_airport := a.outbound_airport,
    routing_description := a.routing_description,
    total_price := a.total_price, currency := a.currency,
    outbound_flight_data := a.outbound_flight_data,
    return_flight_data := a.return_flight_data,
    booking_url := a.booking_url,
    flight_numbers := a.flight_numbers, airlines := a.airlines,
    checked_date := today, created_at := s.clock }

/-- `api/database.py`, `save_flight_price`: `INSERT` a new row into
`flight_prices` with `checked_date = datetime.now().strftime("%Y-%m-%d")`
(the `today` argument), returning `cursor.lastrowid` (the fresh
autoincrement id). It is a plain `INSERT`: it never replaces or deletes. -/
def save_flight_price (s : DBState) (today : Date) (a : SaveArgs) :
    ℕ × DBState :=
  (s.next_flight_id,
   { s with flight_prices := s.flight_prices ++ [savedRow s today a],
            next_flight_id := s.next_flight_id + 1,
            clock := s.clock + 1 })

/-- The `ORDER BY checked_date DESC, created_at DESC` key: row `a` sorts at
or before row `b`. -/
def histGE (a b : FlightRow) : Prop :=
  b.checked_date < a.checked_date ∨
    (b.checked_date = a.checked_date ∧ b.created_at ≤ a.created_at)

instance : DecidableRel histGE := fun a b => by
  unfold histGE; infer_instance

instance : IsTotal FlightRow histGE where
  total a b := by
    rcases lt_trichotomy a.checked_date b.checked_date with h | h | h
    · exact Or.inr (Or.inl h)
    · rcases Nat.le_total b.created_at a.created_at with h' | h'
      · exact Or.inl (Or.inr ⟨h.symm, h'⟩)
      · exact Or.inr (Or.inr ⟨h, h'⟩)
    · exact Or.inl (Or.inl h)

instance : IsTrans FlightRow histGE where
  trans a b c hab hbc := by
    rcases hab with hab | ⟨hab, hab'⟩ <;> rcases hbc with hbc | ⟨hbc, hbc'⟩
    · exact Or.inl (lt_trans hbc hab)
    · exact Or.inl (lt_of_eq_of_lt hbc hab)
    · exact Or.inl (lt_of_lt_of_eq hbc hab)
    · exact Or.inr ⟨hbc.trans hab, le_trans hbc' hab'⟩

/-- The row filter of both history queries:
`WHERE departure_date = ? AND return_date = ?`. -/
def matchesKey (dep ret : Date) (r : FlightRow) : Bool :=
  r.departure_date == dep && r.return_date == ret

/-- The row sequence produced by
`SELECT * FROM flight_prices WHERE departure_date = ? AND return_date = ?
ORDER BY checked_date DESC, created_at DESC` — shared by
`get_last_checked_price` (`api/database.py`) and `get_price_history`
(`api/phase3_tracker.py`), which differ only in `LIMIT` and column list. -/
def flight_history (s : DBState) (dep ret : Date) : List FlightRow :=
  List.insertionSort histGE (s.flight_prices.filter (matchesKey dep ret))

/-- `api/database.py`, `get_last_checked_price`: the same query with
`LIMIT 1` and `fetchone()` — the first row of the ordered sequence, or
`None` when the pair was never observed. -/
def get_last_checked_price (s : DBState) (dep ret : Date) :
    Option FlightRow :=
  (flight_history s dep ret).head?

/-- The column list of `get_price_history`'s `SELECT`:
`checked_date, total_price, currency, routing_description`. -/
structure HistoryEntry where
  checked_date : Date
  total_price : ℚ
  currency : String
  routing_description : String
deriving Repr, DecidableEq

/-- `api/phase3_tracker.py`, `PriceTracker.get_price_history`: full ordered
history of a route/date pair, projected to its four `SELECT` columns. -/
def get_price_history (s : DBState) (dep ret : Date) : List HistoryEntry :=
  (flight_history s dep ret).map fun r =>
    { checked_date := r.checked_date, total_price := r.total_price,
      currency := r.currency, routing_description := r.routing_description }

/-- `api/database.py`, `get_daily_best_price`:
`SELECT * FROM daily_best_prices WHERE date = ?`, `fetchone()`. -/
def get_daily_best_price (s : DBState) (date : Date) : Option DailyBestRow :=
  s.daily_best_prices.find? (fun r => r.date == date)

/-- `api/database.py`, `update_daily_best_price`: `INSERT OR REPLACE INTO
daily_best_prices` keyed by the `UNIQUE(date)` constraint. SQLite resolves
the conflict by deleting every row with that `date` and inserting a fresh
row; the fresh row's `id` is a new autoincrement value (the `id` column is
not in the INSERT's column list), and `updated_at` is `CURRENT_TIMESTAMP`.
It performs no comparison with the stored price: it writes unconditionally.
`updBestRow` is the fresh row such a call inserts. -/
def updBestRow (s : DBState) (date : Date) (best_price : ℚ)
    (currency : String) (dep ret : Date)
    (inb outb desc : String) (flight_record_id : ℕ) : DailyBestRow :=
  { id := s.next_best_id, date := date, best_price := best_price,
    currency := currency, departure_date := dep, return_date := ret,
    inbound_airport := inb, outbound_airport := outb,
    routing_description := desc, flight_record_id := flight_record_id,
    updated_at := s.clock }

def update_daily_best_price (s : DBState) (date : Date) (best_price : ℚ)
    (currency : String) (dep ret : Date)
    (inb outb desc : String) (flight_record_id : ℕ) : DBState :=
  { s with
      daily_best_prices :=
        (s.daily_best_prices.filter fun r => !(r.date == date))
          ++ [updBestRow s date best_price currency dep ret inb outb desc
                flight_record_id],
      next_best_id := s.next_best_id + 1,
      clock := s.clock + 1 }

/-- The arguments of `compare_and_update_best_price`. The two flight
payloads are opaque provider JSON; `all_numbers` and `all_airlines` stand
for the display strings the method computes from them via
`extract_flight_numbers` / `extract_airlines` (`api/utils/flight_details.py`,
pure string extraction that no tracked property depends on). -/
structure CompareArgs where
  departure_date : Date
  return_date : Date
  current_price : ℚ
  currency : String
  inbound_airport : String
  outbound_airport : String
  routing_description : String
  outbound_flight_data : Option String
  return_flight_data : Option String
  booking_url : Option String
  all_numbers : String
  all_airlines : String
deriving Repr, DecidableEq

/-- The dictionary `compare_and_update_best_price` returns, with its exact
keys as fields. -/
structure ComparisonResult where
  current_price : ℚ
  currency : String
  last_checked_price : Option ℚ
  price_drop : Option ℚ
  is_new_best_today : Bool
  today_best_price : ℚ
  record_id : ℕ
deriving Repr, DecidableEq

/-- The `save_flight_price` keyword arguments `compare_and_update_best_price`
passes: `total_price` is the current price and the display strings are the
extracted `all_numbers` / `all_airlines`. -/
def compareSaveArgs (a : CompareArgs) : SaveArgs :=
  { departure_date := a.departure_date, return_date := a.return_date,
    inbound_airport := a.inbound_airport,
    outbound_airport := a.outbound_airport,
    total_price := a.current_price, currency := a.currency,
    routing_description := a.routing_description,
    outbound_flight_data := a.outbound_flight_data,
    return_flight_data := a.return_flight_data,
    booking_url := a.booking_url,
    flight_numbers := some a.all_numbers,
    airlines := some a.all_airlines }

/-- `api/database.py`, `compare_and_update_best_price`, step for step:
read the last observation for the route/date pair and today's best (both on
the pre-insert state), insert the new observation unconditionally, write
the daily best iff today's best was absent or the new price is strictly
below it, and return the comparison dictionary. -/
def compare_and_update_best_price (s : DBState) (today : Date)
    (a : CompareArgs) : ComparisonResult × DBState :=
  let last_price_record := get_last_checked_price s a.departure_date a.return_date
  let today_best := get_daily_best_price s today
  let saved := save_flight_price s today (compareSaveArgs a)
  let record_id := saved.1
  let is_new_best : Bool :=
    match today_best with
    | none => true
    | some tb => decide (a.current_price < tb.best_price)
  let s2 :=
    if is_new_best then
      update_daily_best_price saved.2 today a.current_price a.currency
        a.departure_date a.return_date a.inbound_airport a.outbound_airport
        a.routing_description record_id
    else saved.2
  ({ current_price := a.current_price,
     currency := a.currency,
     last_checked_price := last_price_record.map (fun r => r.total_price),
     price_drop := last_price_record.map (fun r => r.total_price - a.current_price),
     is_new_best_today := is_new_best,
     today_best_price := (today_best.map (fun r => r.best_price)).getD a.current_price,
     record_id := record_id }, s2)

/-- The `best_option` payload of the external search provider's result
(`api/services/open_jaw_search.py`, consumed by
`track_flight_prices`). The flight payloads are opaque. -/
structure Offer where
  inbound_airport : String
  outbound_airport : String
  description : String
  total_price : ℚ
  currency : String
  outbound_flight : Option String
  return_flight : Option String
deriving Repr, DecidableEq

/-- The provider's result shape: `{success: bool, best_option?: ...}`.
A missing or empty `best_option` dictionary is `none` (Python truthiness:
the guard also rejects an empty dict). -/
structure SearchResult where
  success : Bool
  best_option : Option Offer
deriving Repr, DecidableEq

/-- The dictionary `track_flight_prices` returns: the early-return failure
dictionary `{success: False, message, departure_date, return_date}`, or the
success dictionary with the comparison bundle, the alert decision and the
`email_sent` field. -/
inductive TrackResult where
  | failure (departure_date return_date : Date)
  | ok (departure_date return_date : Date) (comparison : ComparisonResult)
      (should_alert email_sent : Bool)
deriving Repr, DecidableEq

/-- The `email_sent` field of a `track_flight_prices` result, when the run
succeeded. -/
def TrackResult.emailSent : TrackResult → Option Bool
  | .failure _ _ => none
  | .ok _ _ _ _ e => some e

/-- How `track_flight_prices` assembles the `CompareArgs` from the
provider's best offer (`booking_url` is not passed and defaults to `None`;
the display strings come from the offer's payloads). -/
def offerArgs (best : Offer) (dep ret : Date) (nums airls : String) :
    CompareArgs :=
  { departure_date := dep, return_date := ret,
    current_price := best.total_price, currency := best.currency,
    inbound_airport := best.inbound_airport,
    outbound_airport := best.outbound_airport,
    routing_description := best.description,
    outbound_flight_data := best.outbound_flight,
    return_flight_data := best.return_flight,
    booking_url := none,
    all_numbers := nums, all_airlines := airls }

/-- `api/phase3_tracker.py`, `PriceTracker.track_flight_prices`, with its
collaborators explicit: `search` is what `search_best_open_jaw` returned,
`notifier_configured` is `self.email_notifier is not None`, and `delivery`
is the outcome of `send_price_drop_alert` (`Except.error` when it raised).
On provider failure it returns the failure dictionary and touches nothing.
Otherwise it runs the comparator, decides the alert with
`should_send_alert`, and — crucially — its returned `email_sent` field is
computed as `should_alert and self.email_notifier is not None`; the
delivery attempt (made inside a `try` block, its result and any exception
only printed) never reaches the returned dictionary, so `delivery` is an
unused argument exactly as the Python result ignores it. -/
def track_flight_prices (s : DBState) (today : Date) (prefs : Preferences)
    (notifier_configured : Bool) (delivery : Except Unit Bool)
    (search : SearchResult) (dep ret : Date) (nums airls : String) :
    TrackResult × DBState :=
  if !search.success then (.failure dep ret, s)
  else
    match search.best_option with
    | none => (.failure dep ret, s)
    | some best =>
      let r := compare_and_update_best_price s today
        (offerArgs best dep ret nums airls)
      let comparison := r.1
      let sa := should_send_alert prefs best.total_price
        comparison.last_checked_price
      (.ok dep ret comparison sa (sa && notifier_configured), r.2)

/-- Processing a sequence of observations through the comparator, state to
state (the shape in which property P2 quantifies over "any order"). -/
def runObservations (s : DBState) (today : Date) (l : List CompareArgs) :
    DBState :=
  l.foldl (fun st a => (compare_and_update_best_price st today a).2) s

/-- The stored best price for a day, as the comparator sees it. -/
def bestPriceToday (s : DBState) (today : Date) : Option ℚ :=
  (get_daily_best_price s today).map (fun r => r.best_price)

/-- The minimum of a list of prices (`none` on the empty list), in the
left-fold shape in which the comparator accumulates it. -/
def listMinQ (l : List ℚ) : Option ℚ :=
  l.foldl (fun o q => some (match o with | none => q | some b => min b q)) none

/-- Processing a sequence of `save_flight_price` calls, state to state
(the shape in which property P1 quantifies over call sequences). -/
def run_saves (s : DBState) (today : Date) (l : List SaveArgs) : DBState :=
  l.foldl (fun st a => (save_flight_price st today a).2) s

/-- The number of stored observations for a route/date pair. -/
def countForKey (s : DBState) (dep ret : Date) : ℕ :=
  (s.flight_prices.filter (matchesKey dep ret)).length

/-! ### Concrete fixtures used by witnesses and counterexamples -/

/-- A concrete comparator call with a negative price. -/
def negativeArgs : CompareArgs :=
  { departure_date := "2026-04-03", return_date := "2026-04-09",
    current_price := -5, currency := "USD",
    inbound_airport := "NRT", outbound_airport := "HND",
    routing_description := "", outbound_flight_data := none,
    return_flight_data := none, booking_url := none,
    all_numbers := "", all_airlines := "" }

/-- A stored daily-best row (id 1) from an earlier upsert. -/
def priorBestRow : DailyBestRow :=
  { id := 1, date := "2026-03-01", best_price := 100, currency := "USD",
    departure_date := "2026-04-03", return_date := "2026-04-09",
    inbound_airport := "NRT", outbound_airport := "HND",
    routing_description := "", flight_record_id := 1, updated_at := 0 }

/-- A database holding `priorBestRow` as the current best for 2026-03-01. -/
def priorDB : DBState :=
  { flight_prices := [], daily_best_prices := [priorBestRow],
    next_flight_id := 2, next_best_id := 2, clock := 1 }

/-- A stored observation priced 200 for the demo route/date pair. -/
def demoRow : FlightRow :=
  { id := 1, departure_date := "2026-04-03", return_date := "2026-04-09",
    inbound_airport := "NRT", outbound_airport := "HND",
    routing_description := "", total_price := 200, currency := "USD",
    outbound_flight_data := none, return_flight_data := none,
    booking_url := none, flight_numbers := none, airlines := none,
    checked_date := "2026-03-01", created_at := 0 }

/-- A database holding `demoRow` as history for the demo pair. -/
def demoDB : DBState :=
  { flight_prices := [demoRow], daily_best_prices := [],
    next_flight_id := 2, next_best_id := 1, clock := 1 }

/-- A provider offer priced 100 for the demo pair: a 100-unit drop against
`demoRow`, far above the default 10-unit threshold. -/
def demoOffer : Offer :=
  { inbound_airport := "NRT", outbound_airport := "HND", description := "",
    total_price := 100, currency := "USD",
    outbound_flight := none, return_flight := none }

/-- Two concrete saves for the append-only witness. -/
def demoSaveA : SaveArgs :=
  { departure_date := "2026-04-03", return_date := "2026-04-09",
    inbound_airport := "NRT", outbound_airport := "HND",
    total_price := 600, currency := "USD", routing_description := "",
    outbound_flight_data := none, return_flight_data := none,
    booking_url := none, flight_numbers := none, airlines := none }

/-- Second concrete save, same route/date pair, different price. -/
def demoSaveB : SaveArgs :=
  { demoSaveA with total_price := 580 }

/-- Two concrete same-day observations for the best-of-day witness
(the spec's §8 scenario: prices 600 then 580 on one day). -/
def demoObsA : CompareArgs :=
  { departure_date := "2026-04-03", return_date := "2026-04-09",
    current_price := 600, currency := "USD",
    inbound_airport := "NRT", outbound_airport := "HND",
    routing_description := "", outbound_flight_data := none,
    return_flight_data := none, booking_url := none,
    all_numbers := "", all_airlines := "" }

/-- Second same-day observation, a different route, price 580. -/
def demoObsB : CompareArgs :=
  { demoObsA with departure_date := "2026-04-04", current_price := 580 }

/-! ### Helper lemmas -/

lemma find?_filter_not_append {α : Type} (p : α → Bool) (x : α)
    (hx : p x = true) (l : List α) :
    ((l.filter fun a => !(p a)) ++ [x]).find? p = some x := by
  induction l with
  | nil => simp [List.find?, hx]
  | cons h t ih =>
    by_cases hp : p h = true
    · simpa [List.filter_cons, hp] using ih
    · simp [List.filter_cons, hp, List.find?_cons, ih]

lemma get_daily_best_price_update (s : DBState) (d : Date) (p : ℚ)
    (c : String) (dep ret : Date) (inb outb desc : String) (fid : ℕ) :
    get_daily_best_price
        (update_daily_best_price s d p c dep ret inb outb desc fid) d
      = some (updBestRow s d p c dep ret inb outb desc fid) := by
  simpa [get_daily_best_price, update_daily_best_price] using
    find?_filter_not_append (fun r : DailyBestRow => r.date == d)
      (updBestRow s d p c dep ret inb outb desc fid)
      (by simp [updBestRow]) s.daily_best_prices

lemma daily_best_prices_save (s : DBState) (today : Date) (a : SaveArgs) :
    (save_flight_price s today a).2.daily_best_prices
      = s.daily_best_prices := rfl

lemma flight_prices_compare (s : DBState) (today : Date) (a : CompareArgs) :
    (compare_and_update_best_price s today a).2.flight_prices
      = s.flight_prices ++ [savedRow s today (compareSaveArgs a)] := by
  unfold compare_and_update_best_price
  dsimp only
  split <;> rfl

lemma bestPriceToday_compare (s : DBState) (today : Date) (a : CompareArgs) :
    bestPriceToday ((compare_and_update_best_price s today a).2) today =
      some (match bestPriceToday s today with
            | none => a.current_price
            | some b => min b a.current_price) := by
  unfold bestPriceToday compare_and_update_best_price
  cases hbt : get_daily_best_price s today with
  | none =>
    simp only [hbt]
    rw [if_pos trivial, get_daily_best_price_update]
    simp [updBestRow]
  | some tb =>
    by_cases hlt : a.current_price < tb.best_price
    · simp only [hbt]
      rw [if_pos (decide_eq_true hlt), get_daily_best_price_update]
      simp [updBestRow, min_eq_right hlt.le]
    · simp only [hbt]
      rw [if_neg (by simpa using hlt)]
      rw [show get_daily_best_price
            (save_flight_price s today (compareSaveArgs a)).2 today
          = get_daily_best_price s today from rfl, hbt]
      simp [min_eq_left (le_of_not_lt hlt)]

lemma bestPriceToday_run (s : DBState) (today : Date) (l : List CompareArgs) :
    bestPriceToday (runObservations s today l) today
      = (l.map fun a => a.current_price).foldl
          (fun o q => some (match o with | none => q | some b => min b q))
          (bestPriceToday s today) := by
  induction l generalizing s with
  | nil => rfl
  | cons a t ih =>
    show bestPriceToday
        (runObservations ((compare_and_update_best_price s today a).2) today t) today = _
    rw [ih, bestPriceToday_compare]
    rfl

lemma listMinQ_from_some (l : List ℚ) (b : ℚ) :
    l.foldl (fun o q => some (match o with | none => q | some c => min c q))
        (some b)
      = some (l.foldl min b) := by
  induction l generalizing b with
  | nil => rfl
  | cons q t ih => simpa using ih (min b q)

lemma foldl_min_le_init (t : List ℚ) (b : ℚ) : t.foldl min b ≤ b := by
  induction t generalizing b with
  | nil => exact le_refl b
  | cons q t ih => exact le_trans (ih (min b q)) (min_le_left b q)

lemma foldl_min_le_mem (t : List ℚ) (b : ℚ) :
    ∀ q ∈ t, t.foldl min b ≤ q := by
  induction t generalizing b with
  | nil => intro q hq; cases hq
  | cons x t ih =>
    intro q hq
    rcases List.mem_cons.mp hq with rfl | hq
    · exact le_trans (foldl_min_le_init t (min b q)) (min_le_right b q)
    · exact ih (min b x) q hq

lemma foldl_min_mem (t : List ℚ) (b : ℚ) :
    t.foldl min b = b ∨ t.foldl min b ∈ t := by
  induction t generalizing b with
  | nil => exact Or.inl rfl
  | cons x t ih =>
    rcases ih (min b x) with h | h
    · rcases min_choice b x with hm | hm
      · exact Or.inl (by rw [List.foldl_cons, h, hm])
      · exact Or.inr (by rw [List.foldl_cons, h, hm]; exact List.mem_cons_self x t)
    · exact Or.inr (List.mem_cons_of_mem x h)

lemma listMinQ_cons (q : ℚ) (t : List ℚ) :
    listMinQ (q :: t) = some (t.foldl min q) := by
  unfold listMinQ
  rw [List.foldl_cons]
  exact listMinQ_from_some t q

lemma run_saves_cons (s : DBState) (today : Date) (a : SaveArgs)
    (t : List SaveArgs) :
    run_saves s today (a :: t)
      = run_saves (save_flight_price s today a).2 today t := rfl

lemma countForKey_save (s : DBState) (today : Date) (a : SaveArgs)
    (dep ret : Date) :
    countForKey (save_flight_price s today a).2 dep ret
      = countForKey s dep ret
        + (if a.departure_date == dep && a.return_date == ret
            then 1 else 0) := by
  by_cases hm : (a.departure_date == dep && a.return_date == ret) = true <;>
    simp [countForKey, save_flight_price, List.filter_append, matchesKey,
      savedRow, hm]

lemma save_preserves_wf (s : DBState) (today : Date) (a : SaveArgs)
    (hwf : ∀ r ∈ s.flight_prices, r.id < s.next_flight_id) :
    ∀ r ∈ (save_flight_price s today a).2.flight_prices,
      r.id < (save_flight_price s today a).2.next_flight_id := by
  intro r hr
  rcases List.mem_append.mp hr with h | h
  · exact Nat.lt_succ_of_lt (hwf r h)
  · rw [List.mem_singleton.mp h]
    exact Nat.lt_succ_self _

lemma save_preserves_inc (s : DBState) (today : Date) (a : SaveArgs)
    (hwf : ∀ r ∈ s.flight_prices, r.id < s.next_flight_id)
    (hinc : (s.flight_prices.map fun r => r.id).Pairwise (· < ·)) :
    ((save_flight_price s today a).2.flight_prices.map
      fun r => r.id).Pairwise (· < ·) := by
  show ((s.flight_prices ++ [savedRow s today a]).map
    fun r => r.id).Pairwise (· < ·)
  rw [List.map_append]
  refine List.pairwise_append.mpr
    ⟨hinc, List.pairwise_singleton _ _, ?_⟩
  intro x hx y hy
  rcases List.mem_map.mp hx with ⟨r, hr, rfl⟩
  simp only [List.map_cons, List.map_nil, List.mem_singleton] at hy
  rw [hy]
  exact hwf r hr

/-! ### Claim theorems -/

/-- C1: `should_send_alert` returns false when the previous price is
absent; otherwise it returns true iff `previous - current` strictly
exceeds the configured threshold (a drop equal to the threshold does not
alert). In particular, with threshold 10: `(90, 100)` does not alert,
`(89.99, 100)` alerts, and `(100, absent)` does not alert. -/
theorem alert_policy_boundary (t current lp : ℚ) :
    should_send_alert ⟨some t⟩ current none = false
    ∧ (should_send_alert ⟨some t⟩ current (some lp) = true ↔ lp - current > t)
    ∧ should_send_alert ⟨some 10⟩ 90 (some 100) = false
    ∧ should_send_alert ⟨some 10⟩ (8999/100) (some 100) = true
    ∧ should_send_alert ⟨some 10⟩ 100 none = false := by
  refine ⟨rfl, ?_, by norm_num [should_send_alert],
    by norm_num [should_send_alert], rfl⟩
  simp [should_send_alert]

/-- C5: when the external search provider reports failure or returns no
best option, `track_flight_prices` returns the failure dictionary
(`success: False`) and performs no Store write whatsoever: the returned
state is exactly the input state, and no error is raised. -/
theorem provider_failure_skips_recording (s : DBState) (today : Date)
    (prefs : Preferences) (notif : Bool) (delivery : Except Unit Bool)
    (search : SearchResult) (dep ret : Date) (nums airls : String)
    (h : search.success = false ∨ search.best_option = none) :
    track_flight_prices s today prefs notif delivery search dep ret nums airls
      = (TrackResult.failure dep ret, s) := by
  rcases h with h | h
  · simp [track_flight_prices, h]
  · cases hs : search.success <;> simp [track_flight_prices, h, hs]

/-- Witness for C5 at a concrete failed search on the empty database. -/
theorem provider_failure_skips_recording_w :
    ((⟨false, none⟩ : SearchResult).success = false
      ∨ (⟨false, none⟩ : SearchResult).best_option = none)
    ∧ track_flight_prices emptyDB "2026-03-01" ⟨some 10⟩ true (Except.ok true)
        ⟨false, none⟩ "2026-04-03" "2026-04-09" "" ""
      = (TrackResult.failure "2026-04-03" "2026-04-09", emptyDB) :=
  ⟨Or.inl rfl,
   provider_failure_skips_recording emptyDB "2026-03-01" ⟨some 10⟩ true
     (Except.ok true) ⟨false, none⟩ "2026-04-03" "2026-04-09" "" ""
     (Or.inl rfl)⟩

/-- C6 counterexample: the claim says a negative price raises
`ValidationError` before any write. In the code, `validate_price` would
indeed reject −5 — but `compare_and_update_best_price` never calls it: the
call on a fresh database with price −5 raises nothing, inserts the
observation row (total_price −5), and returns record id 1. -/
theorem negative_price_written_cex :
    validate_price (some (-5)) = Except.error "Price must be below minimum"
    ∧ ((compare_and_update_best_price emptyDB "2026-03-01"
          negativeArgs).2.flight_prices.map fun r => r.total_price) = [-5]
    ∧ (compare_and_update_best_price emptyDB "2026-03-01"
        negativeArgs).1.record_id = 1 := by
  exact ⟨rfl, rfl, rfl⟩

/-- C6 amended: `compare_and_update_best_price` performs no price
validation: a call with a negative `current_price` raises nothing and
unconditionally inserts the observation (carrying the negative price) —
even though `validate_price`, which exists in `api/utils/validators.py`
and raises `ValidationError` exactly for such inputs, is never called by
the comparator. -/
theorem negative_price_not_validated (s : DBState) (today : Date)
    (a : CompareArgs) (h : a.current_price < 0) :
    (∃ m, validate_price (some a.current_price) = Except.error m)
    ∧ (compare_and_update_best_price s today a).2.flight_prices
        = s.flight_prices ++ [savedRow s today (compareSaveArgs a)]
    ∧ (savedRow s today (compareSaveArgs a)).total_price = a.current_price
    ∧ (compare_and_update_best_price s today a).1.record_id
        = s.next_flight_id := by
  refine ⟨⟨"Price must be below minimum", ?_⟩,
    flight_prices_compare s today a, rfl, rfl⟩
  simp [validate_price, h]

/-- Witness for C6's amended theorem at price −5 on the empty database. -/
theorem negative_price_not_validated_w :
    negativeArgs.current_price < 0
    ∧ ((∃ m, validate_price (some negativeArgs.current_price)
          = Except.error m)
      ∧ (compare_and_update_best_price emptyDB "2026-03-01"
            negativeArgs).2.flight_prices
          = emptyDB.flight_prices
            ++ [savedRow emptyDB "2026-03-01" (compareSaveArgs negativeArgs)]
      ∧ (savedRow emptyDB "2026-03-01"
          (compareSaveArgs negativeArgs)).total_price
          = negativeArgs.current_price
      ∧ (compare_and_update_best_price emptyDB "2026-03-01"
          negativeArgs).1.record_id = emptyDB.next_flight_id) :=
  ⟨by norm_num [negativeArgs],
   negative_price_not_validated emptyDB "2026-03-01" negativeArgs
     (by norm_num [negativeArgs])⟩

/-- C7 counterexample: the claim says the alert decision is independent of
external configuration state, the threshold being an injected parameter.
But the Python signature is `should_send_alert(current_price,
last_checked_price)`: the threshold is read inside via `get_preferences()`,
so two runs with identical price arguments but different configured
thresholds disagree. -/
theorem alert_config_dependence_cex :
    should_send_alert ⟨some 10⟩ 89 (some 100) = true
    ∧ should_send_alert ⟨some 12⟩ 89 (some 100) = false := by
  refine ⟨by norm_num [should_send_alert], by norm_num [should_send_alert]⟩

/-- C7 amended: `should_send_alert` is a pure, deterministic function of
`(current_price, last_checked_price)` and the configured preferences; the
threshold is not a parameter but is read from `get_preferences()` (default
10.0 when unconfigured), and with that configured threshold the function
coincides exactly with the spec's injected-threshold policy
`should_alert(current, previous, threshold)`. -/
theorem alert_policy_functional_contract (prefs : Preferences) (c : ℚ)
    (lp : Option ℚ) :
    should_send_alert prefs c lp
      = should_alert_spec c lp (prefs.alert_price_drop_threshold.getD 10) := by
  cases lp <;> rfl

/-- C9 amended: `update_daily_best_price` is a pure write — it performs no
price comparison (the written `best_price` is the argument, whatever was
stored), creates the row when absent and otherwise replaces it: SQLite's
`INSERT OR REPLACE` deletes the conflicting row and inserts a fresh one
with a new autoincrement id, so exactly one row exists for the date
afterwards, rows of other dates and the `flight_prices` table are
untouched — but the row is not field-mutated in place: its identity (id)
is not preserved. -/
theorem daily_best_upsert_contract (s : DBState) (d : Date) (p : ℚ)
    (c : String) (dep ret : Date) (inb outb desc : String) (fid : ℕ) :
    get_daily_best_price
        (update_daily_best_price s d p c dep ret inb outb desc fid) d
      = some (updBestRow s d p c dep ret inb outb desc fid)
    ∧ (updBestRow s d p c dep ret inb outb desc fid).best_price = p
    ∧ (updBestRow s d p c dep ret inb outb desc fid).id = s.next_best_id
    ∧ ((update_daily_best_price s d p c dep ret inb outb desc
          fid).daily_best_prices.filter fun r => r.date == d).length = 1
    ∧ ((update_daily_best_price s d p c dep ret inb outb desc
          fid).daily_best_prices.filter fun r => !(r.date == d))
        = s.daily_best_prices.filter (fun r => !(r.date == d))
    ∧ (update_daily_best_price s d p c dep ret inb outb desc
        fid).flight_prices = s.flight_prices := by
  refine ⟨get_daily_best_price_update s d p c dep ret inb outb desc fid,
    rfl, rfl, ?_, ?_, rfl⟩
  · simp [update_daily_best_price, List.filter_append, List.filter_filter,
      updBestRow]
  · simp [update_daily_best_price, List.filter_append, List.filter_filter,
      updBestRow]

/-- C9 counterexample: the stored best row for 2026-03-01 has id 1; after
the upsert the (single) row for that date has id 2 — the row was replaced,
not field-mutated, so its row identity is not preserved as claimed. -/
theorem daily_best_row_identity_cex :
    (get_daily_best_price priorDB "2026-03-01").map (fun r => r.id) = some 1
    ∧ ((get_daily_best_price
          (update_daily_best_price priorDB "2026-03-01" 90 "USD" "2026-04-03"
            "2026-04-09" "NRT" "HND" "" 1) "2026-03-01").map fun r => r.id)
        = some 2 := by
  decide

/-- C10: on a successful iteration, the `email_sent` field of the returned
dictionary equals `should_alert && notifier configured` and is computed
without ever consulting the delivery outcome: the whole result is
invariant under the delivery argument, and in the concrete demo run with a
100-unit drop the delivery raises (`Except.error ()`) yet `email_sent` is
still true. -/
theorem email_sent_ignores_delivery (s : DBState) (today : Date)
    (prefs : Preferences) (notif : Bool) (d₁ d₂ : Except Unit Bool)
    (best : Offer) (dep ret : Date) (nums airls : String) :
    track_flight_prices s today prefs notif d₁ ⟨true, some best⟩ dep ret
        nums airls
      = track_flight_prices s today prefs notif d₂ ⟨true, some best⟩ dep ret
        nums airls
    ∧ (track_flight_prices s today prefs notif d₁ ⟨true, some best⟩ dep ret
        nums airls).1.emailSent
      = some (should_send_alert prefs best.total_price
            (compare_and_update_best_price s today
              (offerArgs best dep ret nums airls)).1.last_checked_price
          && notif)
    ∧ (track_flight_prices demoDB "2026-03-02" ⟨some 10⟩ true
        (Except.error ()) ⟨true, some demoOffer⟩ "2026-04-03" "2026-04-09"
        "" "").1.emailSent = some true := by
  refine ⟨rfl, rfl, ?_⟩
  have hl : (compare_and_update_best_price demoDB "2026-03-02"
      (offerArgs demoOffer "2026-04-03" "2026-04-09" "" "")).1.last_checked_price
      = some 200 := rfl
  show some (should_send_alert ⟨some 10⟩ demoOffer.total_price
      (compare_and_update_best_price demoDB "2026-03-02"
        (offerArgs demoOffer "2026-04-03" "2026-04-09" "" "")).1.last_checked_price
    && true) = some true
  rw [hl]
  norm_num [should_send_alert, demoOffer]

/-- C3: the returned comparison bundle is computed against the pre-insert
state: `last_checked_price` and `price_drop` come from the last observation
as read before the insert (both absent when the pair was never observed),
`is_new_best_today` and `today_best_price` from today's best as read before
the insert (`today_best_price` falling back to the current price), and
`record_id` is the id of the freshly appended observation row. -/
theorem comparator_result_contract (s : DBState) (today : Date)
    (a : CompareArgs) :
    (compare_and_update_best_price s today a).1.current_price
        = a.current_price
    ∧ (compare_and_update_best_price s today a).1.currency = a.currency
    ∧ (compare_and_update_best_price s today a).1.last_checked_price
        = (get_last_checked_price s a.departure_date a.return_date).map
            (fun r => r.total_price)
    ∧ (compare_and_update_best_price s today a).1.price_drop
        = (get_last_checked_price s a.departure_date a.return_date).map
            (fun r => r.total_price - a.current_price)
    ∧ (compare_and_update_best_price s today a).1.is_new_best_today
        = (get_daily_best_price s today).elim true
            (fun tb => decide (a.current_price < tb.best_price))
    ∧ (compare_and_update_best_price s today a).1.today_best_price
        = ((get_daily_best_price s today).map (fun r => r.best_price)).getD
            a.current_price
    ∧ (compare_and_update_best_price s today a).1.record_id
        = s.next_flight_id
    ∧ (compare_and_update_best_price s today a).2.flight_prices
        = s.flight_prices ++ [savedRow s today (compareSaveArgs a)]
    ∧ (savedRow s today (compareSaveArgs a)).id = s.next_flight_id
    ∧ (savedRow s today (compareSaveArgs a)).total_price
        = a.current_price := by
  refine ⟨rfl, rfl, rfl, rfl, ?_, rfl, rfl,
    flight_prices_compare s today a, rfl, rfl⟩
  cases hbt : get_daily_best_price s today <;>
    simp [compare_and_update_best_price, hbt]

/-- C4: the history query sorts exactly the pair's observations (the
output is a permutation of the filtered table) in non-increasing
`(checked_date, created_at)` order, most recent first; the projected
entries inherit the non-increasing `checked_date` order;
`get_last_checked_price` is the head of that same ordered sequence, and is
`none` exactly when the pair was never observed. -/
theorem history_ordering_contract (s : DBState) (dep ret : Date) :
    List.Sorted histGE (flight_history s dep ret)
    ∧ (flight_history s dep ret).Perm
        (s.flight_prices.filter (matchesKey dep ret))
    ∧ List.Sorted
        (fun e e' : HistoryEntry => e'.checked_date ≤ e.checked_date)
        (get_price_history s dep ret)
    ∧ get_last_checked_price s dep ret = (flight_history s dep ret).head?
    ∧ (get_last_checked_price s dep ret = none
        ↔ s.flight_prices.filter (matchesKey dep ret) = []) := by
  have hsort := List.sorted_insertionSort histGE
    (s.flight_prices.filter (matchesKey dep ret))
  have hperm := List.perm_insertionSort histGE
    (s.flight_prices.filter (matchesKey dep ret))
  refine ⟨hsort, hperm, ?_, rfl, ?_⟩
  · unfold get_price_history
    refine List.Pairwise.map _ (fun a b hab => ?_) hsort
    rcases hab with h | ⟨h, _⟩
    · exact le_of_lt h
    · exact le_of_eq h
  · unfold get_last_checked_price
    rw [List.head?_eq_none_iff]
    constructor
    · intro h
      unfold flight_history at h
      rw [h] at hperm
      exact hperm.symm.eq_nil
    · intro h
      unfold flight_history
      rw [h]
      rfl

/-- C2: starting from a day with no DailyBest row, processing any sequence
of same-day observations through the comparator leaves the stored best
equal to the minimum of their prices (which exists and is attained by one
of them); and at every single step against an existing best `b`, the best
becomes `min b price` — it never increases, and the row is rewritten
(`is_new_best_today`) exactly when the new price is strictly below `b`. -/
theorem best_of_day_minimum (s : DBState) (today : Date)
    (l : List CompareArgs) (h0 : get_daily_best_price s today = none)
    (hne : l ≠ []) :
    (∃ m, listMinQ (l.map fun a => a.current_price) = some m)
    ∧ bestPriceToday (runObservations s today l) today
        = listMinQ (l.map fun a => a.current_price)
    ∧ (∀ m, listMinQ (l.map fun a => a.current_price) = some m →
        m ∈ l.map (fun a => a.current_price)
        ∧ ∀ q ∈ l.map (fun a => a.current_price), m ≤ q)
    ∧ ∀ (s' : DBState) (a : CompareArgs) (b : ℚ),
        bestPriceToday s' today = some b →
          bestPriceToday ((compare_and_update_best_price s' today a).2) today
            = some (min b a.current_price)
          ∧ (compare_and_update_best_price s' today a).1.is_new_best_today
            = decide (a.current_price < b) := by
  refine ⟨?_, ?_, ?_, ?_⟩
  · cases l with
    | nil => exact absurd rfl hne
    | cons a t => exact ⟨_, by rw [List.map_cons, listMinQ_cons]⟩
  · rw [bestPriceToday_run, show bestPriceToday s today = none from by
      unfold bestPriceToday; rw [h0]; rfl]
    rfl
  · intro m hm
    cases l with
    | nil => simp [listMinQ] at hm
    | cons a t =>
      rw [List.map_cons, listMinQ_cons] at hm
      obtain rfl := Option.some_inj.mp hm
      constructor
      · rcases foldl_min_mem (t.map fun a => a.current_price)
          a.current_price with h | h
        · rw [List.map_cons, h]
          exact List.mem_cons_self _ _
        · rw [List.map_cons]
          exact List.mem_cons_of_mem _ h
      · intro q hq
        rw [List.map_cons] at hq
        rcases List.mem_cons.mp hq with rfl | hq
        · exact foldl_min_le_init _ _
        · exact foldl_min_le_mem _ _ q hq
  · intro s' a b hb
    obtain ⟨tb, htb, hbp⟩ := Option.map_eq_some'.mp hb
    constructor
    · rw [bestPriceToday_compare, hb]
    · rw [show b = tb.best_price from hbp.symm]
      simp [compare_and_update_best_price, htb]

/-- Witness for C2 at the spec's §8 scenario: two same-day observations
priced 600 then 580, processed on the empty database. -/
theorem best_of_day_minimum_w :
    get_daily_best_price emptyDB "2026-03-02" = none
    ∧ ([demoObsA, demoObsB] : List CompareArgs) ≠ []
    ∧ ((∃ m, listMinQ (([demoObsA, demoObsB] : List CompareArgs).map
          fun a => a.current_price) = some m)
      ∧ bestPriceToday (runObservations emptyDB "2026-03-02"
            [demoObsA, demoObsB]) "2026-03-02"
          = listMinQ (([demoObsA, demoObsB] : List CompareArgs).map
              fun a => a.current_price)
      ∧ (∀ m, listMinQ (([demoObsA, demoObsB] : List CompareArgs).map
            fun a => a.current_price) = some m →
          m ∈ ([demoObsA, demoObsB] : List CompareArgs).map
              (fun a => a.current_price)
          ∧ ∀ q ∈ ([demoObsA, demoObsB] : List CompareArgs).map
              (fun a => a.current_price), m ≤ q)
      ∧ ∀ (s' : DBState) (a : CompareArgs) (b : ℚ),
          bestPriceToday s' "2026-03-02" = some b →
            bestPriceToday
                ((compare_and_update_best_price s' "2026-03-02" a).2)
                "2026-03-02"
              = some (min b a.current_price)
            ∧ (compare_and_update_best_price s' "2026-03-02"
                a).1.is_new_best_today
              = decide (a.current_price < b)) :=
  ⟨rfl, by simp,
   best_of_day_minimum emptyDB "2026-03-02" [demoObsA, demoObsB] rfl
     (by simp)⟩

/-- C8: a sequence of `save_flight_price` calls only ever appends: the row
count grows by exactly the number of calls, the per-route/date-pair count
grows by exactly the number of calls for that pair (nothing is overwritten
or rejected as a duplicate), and the assigned ids are strictly increasing
in insertion order (hence unique), each below the next autoincrement
value. -/
theorem append_only_save_sequence (s : DBState) (today : Date)
    (l : List SaveArgs) (dep ret : Date)
    (hwf : ∀ r ∈ s.flight_prices, r.id < s.next_flight_id)
    (hinc : (s.flight_prices.map fun r => r.id).Pairwise (· < ·)) :
    (run_saves s today l).flight_prices.length
        = s.flight_prices.length + l.length
    ∧ countForKey (run_saves s today l) dep ret
        = countForKey s dep ret
          + (l.filter fun a =>
              a.departure_date == dep && a.return_date == ret).length
    ∧ ((run_saves s today l).flight_prices.map fun r => r.id).Pairwise (· < ·)
    ∧ ∀ r ∈ (run_saves s today l).flight_prices,
        r.id < (run_saves s today l).next_flight_id := by
  induction l generalizing s hwf hinc with
  | nil =>
    exact ⟨by simp [run_saves], by simp [run_saves], hinc, hwf⟩
  | cons a t ih =>
    obtain ⟨ihl, ihc, ihp, ihw⟩ :=
      ih (save_flight_price s today a).2 (save_preserves_wf s today a hwf)
        (save_preserves_inc s today a hwf hinc)
    refine ⟨?_, ?_, ihp, ihw⟩
    · rw [run_saves_cons, ihl]
      show (s.flight_prices ++ [savedRow s today a]).length + t.length = _
      simp only [List.length_append, List.length_cons, List.length_singleton,
        List.length_nil]
      omega
    · rw [run_saves_cons, ihc, countForKey_save, List.filter_cons]
      by_cases hm :
          (a.departure_date == dep && a.return_date == ret) = true <;>
        simp [hm] <;> omega

/-- Witness for C8: two concrete saves for the same route/date pair on the
empty database. -/
theorem append_only_save_sequence_w :
    (∀ r ∈ emptyDB.flight_prices, r.id < emptyDB.next_flight_id)
    ∧ ((emptyDB.flight_prices.map fun r => r.id).Pairwise (· < ·))
    ∧ ((run_saves emptyDB "2026-03-01"
          [demoSaveA, demoSaveB]).flight_prices.length
        = emptyDB.flight_prices.length
          + ([demoSaveA, demoSaveB] : List SaveArgs).length
      ∧ countForKey (run_saves emptyDB "2026-03-01" [demoSaveA, demoSaveB])
          "2026-04-03" "2026-04-09"
        = countForKey emptyDB "2026-04-03" "2026-04-09"
          + (([demoSaveA, demoSaveB] : List SaveArgs).filter fun a =>
              a.departure_date == "2026-04-03"
                && a.return_date == "2026-04-09").length
      ∧ ((run_saves emptyDB "2026-03-01"
            [demoSaveA, demoSaveB]).flight_prices.map
          fun r => r.id).Pairwise (· < ·)
      ∧ ∀ r ∈ (run_saves emptyDB "2026-03-01"
            [demoSaveA, demoSaveB]).flight_prices,
          r.id < (run_saves emptyDB "2026-03-01"
            [demoSaveA, demoSaveB]).next_flight_id) :=
  ⟨by simp [emptyDB], by simp [emptyDB],
   append_only_save_sequence emptyDB "2026-03-01" [demoSaveA, demoSaveB]
     "2026-04-03" "2026-04-09" (by simp [emptyDB]) (by simp [emptyDB])⟩

end FlightAgent
